import Mathlib

/-!
Verification development for the `lighter` deCONZ gateway client.

The definitions below are a shallow embedding of `src/lighter/deconz.py`:
Python dictionaries become association lists or structures with `Option`
fields (a `none` field models an absent key), Python exceptions become
`Except PyErr`, floats become `ℚ`, and the websocket/HTTP side effects are
made explicit (responses and notification messages are passed in as data).
The module `lighter/color.py` is imported by the source but is not part of
the source tree; the one function whose behaviour the spec fixes
(`color_temperature_kelvin_to_mired`) is modelled from the spec, and the
remaining colour conversions are abstract parameters (`ColorLib`).
-/

/-- Errors corresponding to the Python exceptions the embedded code can raise. -/
inductive PyErr where
  | keyError (k : String)
  | valueError
  | runtimeError (m : String)
  | assertionError
deriving DecidableEq, Repr

/-- The whitespace characters Python `str.strip`/`str.split` recognise. -/
def is_ws (c : Char) : Bool :=
  c = ' ' || c = '\t' || c = '\n' || c = '\r' || c = '\x0b' || c = '\x0c'

/-- Character-list prefix test (the string builtins are re-implemented over
`String.data` so that every definition evaluates inside the kernel). -/
def list_startsWith : List Char → List Char → Bool
  | _, [] => true
  | [], _ :: _ => false
  | c :: cs, p :: ps => c == p && list_startsWith cs ps

/-- Python `str.startswith`. -/
def str_startsWith (s p : String) : Bool :=
  list_startsWith s.data p.data

/-- Python `str.endswith`. -/
def str_endsWith (s p : String) : Bool :=
  list_startsWith s.data.reverse p.data.reverse

/-- Python slicing `s[n:]`. -/
def str_drop (s : String) (n : Nat) : String :=
  ⟨s.data.drop n⟩

/-- Python slicing `s[:-n]`. -/
def str_dropRight (s : String) (n : Nat) : String :=
  ⟨s.data.take (s.data.length - n)⟩

/-- Python `str.strip()`. -/
def str_trim (s : String) : String :=
  ⟨((s.data.dropWhile is_ws).reverse.dropWhile is_ws).reverse⟩

/-- Python `str.lower()` (ASCII; every name the source handles is ASCII). -/
def str_toLower (s : String) : String :=
  ⟨s.data.map Char.toLower⟩

/-- Decimal value of a digit list. -/
def nat_of_digits (cs : List Char) : Nat :=
  cs.foldl (fun a c => 10 * a + (c.toNat - 48)) 0

/-- Models Python `int(s)` on decimal strings: optional surrounding
whitespace, optional sign, then decimal digits; `none` models `ValueError`.
(Underscore digit-group separators are not modelled; no caller uses them.) -/
def py_int? (s : String) : Option Int :=
  let t := str_trim s
  let neg := str_startsWith t "-"
  let core := if neg || str_startsWith t "+" then str_drop t 1 else t
  if !core.data.isEmpty && core.data.all Char.isDigit then
    some (if neg then -(nat_of_digits core.data : Int) else (nat_of_digits core.data : Int))
  else none

/-- Splitter for `str.split()`: cut at every whitespace character. -/
def split_ws_aux : List Char → List Char → List (List Char)
  | [], acc => [acc.reverse]
  | c :: cs, acc =>
    if is_ws c then acc.reverse :: split_ws_aux cs []
    else split_ws_aux cs (c :: acc)

/-- Models Python `str.split()` with no argument: split on whitespace runs,
dropping empty pieces. -/
def py_split (s : String) : List String :=
  ((split_ws_aux s.data []).map (fun l => (⟨l⟩ : String))).filter
    (fun x => !x.data.isEmpty)

/-- Models Python `round` on the exact ratio `n / d`, for a positive
denominator (the only use sites divide by a positive temperature or by
100): round half to even. -/
def round_half_even_frac (n d : Int) : Int :=
  let f := Int.fdiv n d
  let r := n - d * f
  if 2 * r < d then f
  else if d < 2 * r then f + 1
  else if f % 2 = 0 then f else f + 1

/-- Models Python `dict` lookup on an association list (`d[k]`/`k in d`). -/
def dlookup (k : String) : List (String × α) → Option α
  | [] => none
  | (k', v) :: rest => if k' = k then some v else dlookup k rest

/-- Python `d[k] = v`: replace in place when the key exists, else append. -/
def dinsert (k : String) (v : α) (d : List (String × α)) : List (String × α) :=
  if (dlookup k d).isSome then d.map (fun p => if p.1 = k then (k, v) else p)
  else d ++ [(k, v)]

/-- Python `del d[k]`. -/
def derase (k : String) (d : List (String × α)) : List (String × α) :=
  d.filter (fun p => p.1 != k)

/-- Python `dict.update`: insert every entry of `src`, later keys overriding. -/
def dupdate (d src : List (String × α)) : List (String × α) :=
  src.foldl (fun acc kv => dinsert kv.1 kv.2 acc) d

/- ## Identifier resolution (`_handle_id`, `_id_predicate`) -/

/-- A raw Python identifier argument: `None`, an `int`, or a `str`. -/
inductive PyId where
  | pynone
  | pyint (n : Int)
  | pystr (s : String)
deriving DecidableEq, Repr

/-- The result of `_handle_id`: `None` (match-all), an integer, a lower-cased
name, or a compiled case-insensitive pattern (we record the pattern text). -/
inductive ResolvedId where
  | rnone
  | rint (n : Int)
  | rname (s : String)
  | rpattern (p : String)
deriving DecidableEq, Repr

/-- Embeds `_handle_id` from `deconz.py`: non-strings pass through; a string
is tried as an integer, else `/…/` compiles to a case-insensitive regex,
else it is lower-cased. -/
def handle_id : PyId → ResolvedId
  | .pynone => .rnone
  | .pyint n => .rint n
  | .pystr s =>
    match py_int? s with
    | some n => .rint n
    | none =>
      if str_startsWith s "/" && str_endsWith s "/" then
        .rpattern (str_dropRight (str_drop s 1) 1)
      else
        .rname (str_toLower s)

/-- Models `re.Pattern.match` (anchored at position 0, `re.IGNORECASE`) for
metacharacter-free patterns, the only ones the claims exercise: the pattern
matches iff it is a case-insensitive prefix of the subject. -/
def regex_match (p : String) (s : String) : Bool :=
  str_startsWith (str_toLower s) (str_toLower p)

/-- Embeds `_id_predicate` from `deconz.py`.  In the integer branch the
source computes `int(actual_id)`; gateway resource ids are decimal strings,
and an unparsable id simply fails to match here. -/
def id_predicate (actual_id actual_name : String) (target : ResolvedId) : Bool :=
  match target with
  | .rname s => str_toLower actual_name == s
  | .rint n => py_int? actual_id == some n
  | .rpattern p => regex_match p actual_name
  | .rnone => false

/- ## Colour conversions (`lighter/color.py` is not in the source tree) -/

/-- Modelled from the spec: `lighter/color.py` is missing from `src/`; §4.3
of the spec fixes `color_temperature_kelvin_to_mired` as
`mired = round(1e6 / kelvin)` (Python `round`, half to even). -/
def color_temperature_kelvin_to_mired (kelvin : Int) : Int :=
  round_half_even_frac 1000000 kelvin

/-- The remaining conversions of the missing `lighter/color.py`
(`color_temperature_to_hs`, `color_hs_to_xy`) are left abstract: no claim
constrains their numeric values. -/
structure ColorLib where
  temperature_to_hs : Int → Int × Int
  hs_to_xy : Int × Int → ℚ × ℚ

/- ## Light state dictionaries -/

/-- A Python state/payload dictionary; a `none` field models an absent key.
Covers every key touched by `_translate_light_state` and
`restore_light_state`. -/
structure StateDict where
  transitiontime : Option Int
  on' : Option Bool
  bri : Option Int
  alert : Option String
  ct : Option Int
  hue : Option Int
  sat : Option Int
  xy : Option (ℚ × ℚ)
  reachable : Option Bool
  effect : Option String
  colormode : Option String
deriving DecidableEq, Repr

/-- The empty dictionary. -/
def StateDict.empty : StateDict :=
  ⟨none, none, none, none, none, none, none, none, none, none, none⟩

/-- The dictionary built by `return ."on": retval["on"]` in the
no-colormode branch: exactly one key. -/
def StateDict.onOnly (b : Bool) : StateDict :=
  { StateDict.empty with on' := some b }

/-- The client-side `Server` fields the embedded methods read. -/
structure Server where
  api_key : String
  transitiontime : Int
  timeout : ℚ
  colorlib : ColorLib

/- ## `_translate_light_state` -/

/-- The inner `_bri` helper: `int(round(255 * perc / 100.0))`. -/
def bri_of (perc : Int) : Int :=
  round_half_even_frac (255 * perc) 100

/-- The inner `_ct` helper: convert Kelvin to mired, then clamp sequentially
to the lower and upper advertised bounds.  The Boolean records whether a
clamp happened (the source logs a warning in exactly those branches). -/
def ct_of (bounds : Int × Int) (kelvin : Int) : Int × Bool :=
  let value := color_temperature_kelvin_to_mired kelvin
  let step1 := if value < bounds.1 then (bounds.1, true) else (value, false)
  let step2 := if step1.1 > bounds.2 then (bounds.2, true) else (step1.1, false)
  (step2.1, step1.2 || step2.2)

/-- One iteration of the keyword loop in `_translate_light_state`: consumes
one token, updating the payload under construction and the pending
temperature intent.  Unknown tokens raise `RuntimeError`; non-numeric `%`/`k`
prefixes raise `ValueError` from `int()`. -/
def consume_token (acc : StateDict × Option Int) (key : String) :
    Except PyErr (StateDict × Option Int) :=
  let r := acc.1
  let temp := acc.2
  if key = "off" || key = "0" || key = "0%" then
    .ok ({ r with on' := some false }, temp)
  else if key = "on" then
    .ok ({ r with on' := some true }, temp)
  else if str_endsWith key "%" then
    match py_int? (str_dropRight key 1) with
    | some n => .ok ({ r with bri := some (bri_of n) }, temp)
    | none => .error .valueError
  else if str_endsWith key "k" then
    match py_int? (str_dropRight key 1) with
    | some n => .ok (r, some n)
    | none => .error .valueError
  else if key = "candle" then .ok (r, some 2000)
  else if key = "warm" then .ok (r, some 2700)
  else if key = "warm+" then .ok (r, some 3000)
  else if key = "soft" then .ok (r, some 3500)
  else if key = "natural" then .ok (r, some 3700)
  else if key = "cool" then .ok (r, some 4000)
  else if key = "day-" then .ok (r, some 5000)
  else if key = "day" then .ok (r, some 6500)
  else if key = "alert" then
    .ok ({ r with alert := some "lselect" }, temp)
  else
    .error (.runtimeError key)

/-- Embeds `Server._translate_light_state`.  `state` is the current light
state dictionary, `bounds` the `(ctmin, ctmax)` pair, `values` the token
list.  Mirrors the source: token loop, no-colormode reduction to
`on` only, off-encoded-as-brightness-zero when the light is on, and the
temperature branch on the current colormode. -/
def translate_light_state (srv : Server) (state : StateDict)
    (bounds : Int × Int) (values : List String) : Except PyErr StateDict :=
  match values.foldlM consume_token
      ({ StateDict.empty with transitiontime := some srv.transitiontime }, none) with
  | .error e => .error e
  | .ok rt =>
    match state.colormode with
    | none =>
      match rt.1.on' with
      | some b => .ok (StateDict.onOnly b)
      | none => .error (.keyError "on")
    | some cm =>
      match state.on' with
      | none => .error (.keyError "on")
      | some son =>
        let retval :=
          if son then
            match rt.1.on' with
            | some false => { rt.1 with bri := some 0, on' := none }
            | _ => rt.1
          else rt.1
        let retval := { retval with transitiontime := some srv.transitiontime }
        let retval :=
          match rt.2 with
          | none => retval
          | some t =>
            if cm = "hs" then
              let hs := srv.colorlib.temperature_to_hs t
              { retval with hue := some hs.1, sat := some hs.2 }
            else if cm = "xy" then
              let xy := srv.colorlib.hs_to_xy (srv.colorlib.temperature_to_hs t)
              { retval with xy := some xy }
            else
              { retval with ct := some (ct_of bounds t).1 }
        .ok retval

/- ## Change synchronizer (`_hook_socket`, `wait_for_changes`) -/

/-- The shared state installed by `_hook_socket`: the two pending-change
dictionaries (`_ws_waiting["lights"]`, `_ws_waiting["groups"]`) and the
`_ws_can_terminate` event flag.  The `_ws_lock` of the source makes each of
the operations below atomic, which is how they are modelled. -/
structure WsState (α : Type) where
  waitingLights : List (String × α)
  waitingGroups : List (String × α)
  canTerminate : Bool
deriving DecidableEq, Repr

/-- A websocket notification message (`json.loads(message)`). -/
structure WsMsg (α : Type) where
  e : String
  r : String
  id : String
  state : α
deriving DecidableEq, Repr

/-- Embeds `_on_message`: a `changed` message whose kind and id match a
pending entry deletes that entry; if no pending entries remain across both
kinds, the terminate event is set.  All other messages are ignored. -/
def on_message (st : WsState α) (m : WsMsg α) : WsState α :=
  if m.e = "changed" then
    if m.r = "lights" then
      if (dlookup m.id st.waitingLights).isSome then
        let wl := derase m.id st.waitingLights
        let waiting_on := wl.length + st.waitingGroups.length
        { st with waitingLights := wl,
                  canTerminate := if waiting_on = 0 then true else st.canTerminate }
      else st
    else if m.r = "groups" then
      if (dlookup m.id st.waitingGroups).isSome then
        let wg := derase m.id st.waitingGroups
        let waiting_on := st.waitingLights.length + wg.length
        { st with waitingGroups := wg,
                  canTerminate := if waiting_on = 0 then true else st.canTerminate }
      else st
    else st
  else st

/-- The synchronizer half of `_set_single_light`: under the lock, register
the pending `("lights", id)` entry and clear the terminate event, before the
PUT is issued. -/
def set_single_light_sync (st : WsState α) (id : String) (data : α) : WsState α :=
  { st with waitingLights := dinsert id data st.waitingLights,
            canTerminate := false }

/-- Embeds `Server._set_single_light`: the synchronizer update plus the PUT
write `(parts, data)` it then issues. -/
def set_single_light (srv : Server) (st : WsState StateDict) (id : String)
    (data : StateDict) : WsState StateDict × (List String × StateDict) :=
  (set_single_light_sync st id data,
   ([srv.api_key, "lights", id, "state"], data))

/-- Models `threading.Event.wait`: returns the value of the flag at the moment
the call returns — `true` when the flag was already set (immediate return)
or became set before the timeout elapsed (`set_during_wait`), `false` on
timeout. -/
def event_wait (flag : Bool) (_timeout : ℚ) (set_during_wait : Bool) : Bool :=
  flag || set_during_wait

/-- Embeds `Server.wait_for_changes`.  `timeout = none` models the `None`
default, and Python `timeout or self.timeout` replaces a falsy (0) timeout
by the configured default.  The source discards the Boolean that
`Event.wait` returns and falls off the end of the function, so the call
evaluates to Python `None` (here `Option.none`) on every path. -/
def wait_for_changes (srv : Server) (st : WsState α) (timeout : Option ℚ)
    (set_during_wait : Bool) : Option Bool :=
  let t := match timeout with
    | none => srv.timeout
    | some x => if x = 0 then srv.timeout else x
  let _r := event_wait st.canTerminate t set_during_wait
  none

/-- Python truthiness of an `Optional[bool]` (`None` is falsy); this is what
`if not self.wait_for_changes():` in `set_group_lights` and
`restore_light_state` applies to the result. -/
def py_truthy (x : Option Bool) : Bool :=
  match x with
  | none => false
  | some b => b

/-- The invariant of claim C2: the terminate event is set iff no pending
change remains. -/
def ws_inv (st : WsState α) : Prop :=
  st.canTerminate = decide (st.waitingLights.length + st.waitingGroups.length = 0)

/- ## Conditional caching (`_cache_config`, `_cache_lights`, `_cache_groups`) -/

/-- A `requests.Response` as the cache layer reads it: status code, reason
phrase, optional `ETag` header, and the decoded JSON body. -/
structure HResp (α : Type) where
  status : Nat
  reason : String
  etag : Option String
  body : α
deriving DecidableEq, Repr

/-- Models `requests.Response.ok`: true for status codes below 400. -/
def resp_ok (r : HResp α) : Bool :=
  r.status < 400

/-- What `Server._get` logs: on a non-ok response it logs the status code
and reason (and still returns the response, never raising). -/
def get_logged (r : HResp α) : Option (Nat × String) :=
  if resp_ok r then none else some (r.status, r.reason)

/-- The two cache-dictionary slots a kind occupies (`self.cache[kind]` and
`self.cache[kind ++ "-etag"]`); `none` models an absent key. -/
structure KindCache (α : Type) where
  snap : Option α
  etag : Option String
deriving DecidableEq, Repr

/-- Embeds `Server._cache_config` (identical in structure to
`_cache_lights`).  `fetch` maps the optional `If-None-Match` ETag of the
issued GET to the response of the gateway.  Returns the final cache slots and
either the value the method returns or the exception it raises: a missing
`ETag` header raises `KeyError` (after the snapshot slot was already
overwritten in the refresh branches), and a 304 whose `ETag` header differs
from the stored one fails the `assert`. -/
def cache_config (fetch : Option String → HResp α) (c : KindCache α) :
    KindCache α × Except PyErr α :=
  match c.snap with
  | none =>
    let resp := fetch none
    let c1 : KindCache α := { c with snap := some resp.body }
    match resp.etag with
    | none => (c1, .error (.keyError "ETag"))
    | some e => ({ c1 with etag := some e }, .ok resp.body)
  | some snap =>
    match c.etag with
    | none => (c, .error (.keyError "config-etag"))
    | some tag =>
      let resp := fetch (some tag)
      if resp.status = 304 then
        match resp.etag with
        | none => (c, .error (.keyError "ETag"))
        | some e =>
          if e = tag then (c, .ok snap) else (c, .error .assertionError)
      else
        let c1 : KindCache α := { c with snap := some resp.body }
        match resp.etag with
        | none => (c1, .error (.keyError "ETag"))
        | some e => ({ c1 with etag := some e }, .ok resp.body)

/-- Embeds `Server._cache_lights`; the source body is the same as
`_cache_config` with the `lights` cache keys. -/
def cache_lights (fetch : Option String → HResp α) (c : KindCache α) :
    KindCache α × Except PyErr α :=
  match c.snap with
  | none =>
    let resp := fetch none
    let c1 : KindCache α := { c with snap := some resp.body }
    match resp.etag with
    | none => (c1, .error (.keyError "ETag"))
    | some e => ({ c1 with etag := some e }, .ok resp.body)
  | some snap =>
    match c.etag with
    | none => (c, .error (.keyError "lights-etag"))
    | some tag =>
      let resp := fetch (some tag)
      if resp.status = 304 then
        match resp.etag with
        | none => (c, .error (.keyError "ETag"))
        | some e =>
          if e = tag then (c, .ok snap) else (c, .error .assertionError)
      else
        let c1 : KindCache α := { c with snap := some resp.body }
        match resp.etag with
        | none => (c1, .error (.keyError "ETag"))
        | some e => ({ c1 with etag := some e }, .ok resp.body)

/-- Embeds `Server._cache_groups`.  The only difference from the other two
kinds: the 304 assert reads the header with `headers.get("ETag")`, so a
missing header fails the assert (`None == etag` is false) instead of raising
`KeyError`. -/
def cache_groups (fetch : Option String → HResp α) (c : KindCache α) :
    KindCache α × Except PyErr α :=
  match c.snap with
  | none =>
    let resp := fetch none
    let c1 : KindCache α := { c with snap := some resp.body }
    match resp.etag with
    | none => (c1, .error (.keyError "ETag"))
    | some e => ({ c1 with etag := some e }, .ok resp.body)
  | some snap =>
    match c.etag with
    | none => (c, .error (.keyError "groups-etag"))
    | some tag =>
      let resp := fetch (some tag)
      if resp.status = 304 then
        if resp.etag = some tag then (c, .ok snap)
        else (c, .error .assertionError)
      else
        let c1 : KindCache α := { c with snap := some resp.body }
        match resp.etag with
        | none => (c1, .error (.keyError "ETag"))
        | some e => ({ c1 with etag := some e }, .ok resp.body)

/- ## Groups, lights and scenes (`get_groups`, `store_scene`, `store_scene2`,
`restore_light_state`) -/

/-- One scene entry of the cached `scenes` list of a group. -/
structure SceneEntry where
  id : String
  name : String
deriving DecidableEq, Repr

/-- The group fields the embedded methods read. -/
structure GroupData where
  name : String
  lights : List String
  scenes : List SceneEntry
deriving DecidableEq, Repr

/-- The light fields the embedded methods read (`v["name"]`, `v["state"]`,
`v.get("ctmin", 250)`, `v.get("ctmax", 454)`). -/
structure Light where
  name : String
  state : StateDict
  ctmin : Option Int
  ctmax : Option Int
deriving DecidableEq, Repr

/-- Embeds `Server.get_groups`: `data` is the cached groups dictionary
(`_cache_groups()`); a `None` id returns everything, otherwise the resolved
id filters by `_id_predicate`. -/
def get_groups (data : List (String × GroupData)) (id : PyId) :
    List (String × GroupData) :=
  match handle_id id with
  | .rnone => data
  | rid => data.filter (fun kv => id_predicate kv.1 kv.2.name rid)

/-- Embeds `Server.get_lights` (same shape as `get_groups`, over the cached
lights dictionary). -/
def get_lights (data : List (String × Light)) (id : PyId) :
    List (String × Light) :=
  match handle_id id with
  | .rnone => data
  | rid => data.filter (fun kv => id_predicate kv.1 kv.2.name rid)

/-- Embeds `Server._select_lights_by_integer_id`: all cached lights whose
key occurs in `ids`. -/
def select_lights_by_integer_id (lightsData : List (String × Light))
    (ids : List String) : List (String × Light) :=
  (get_lights lightsData .pynone).filter (fun kv => ids.contains kv.1)

/-- Embeds `Server._get_light_state_dict`: translate `values` against every
light of `d` (an exception from the translator propagates). -/
def get_light_state_dict (srv : Server) (d : List (String × Light))
    (values : List String) : Except PyErr (List (String × StateDict)) :=
  d.mapM (fun kv => do
    let s ← translate_light_state srv kv.2.state
      (kv.2.ctmin.getD 250, kv.2.ctmax.getD 454) values
    pure (kv.1, s))

/-- The per-group loop body of `Server.store_scene`, iterated over the
(at that point single) matched group: resolve the scene selector against the
scene list of the group; zero candidates logs and continues, more than one raises
`RuntimeError`, exactly one produces the store PUT. -/
def store_scene_loop (srv : Server) (scene : PyId) :
    List (String × GroupData) → Except PyErr (List (List String × Int))
  | [] => .ok []
  | (k, v) :: rest => do
    let sc := handle_id scene
    let candidates := v.scenes.filter (fun s => id_predicate s.id s.name sc)
    if candidates.length = 0 then
      store_scene_loop srv scene rest
    else if candidates.length > 1 then
      .error (.runtimeError "Scene storage can only affect one scene at the time")
    else do
      let writes := candidates.map (fun s =>
        ([srv.api_key, "groups", k, "scenes", s.id, "store"], srv.transitiontime))
      let more ← store_scene_loop srv scene rest
      .ok (writes ++ more)

/-- Embeds `Server.store_scene`: zero matched groups logs and returns (no
writes), more than one raises `RuntimeError`; otherwise the per-group loop
issues the store PUT carrying the configured transition time. -/
def store_scene (srv : Server) (groupsData : List (String × GroupData))
    (id scene : PyId) : Except PyErr (List (List String × Int)) :=
  let group := get_groups groupsData id
  if group.length = 0 then .ok []
  else if group.length > 1 then
    .error (.runtimeError "Scene storage can only affect one group at a time")
  else store_scene_loop srv scene group

/-- Embeds `Server.get_scenes`: `scenesIndex` is the per-group
`groups/<g>/scenes` gateway listing (scene key to scene name) and `sceneDetail` the
per-scene detail GET.  A `None` id keeps every scene, otherwise the resolved
id filters by `_id_predicate`. -/
def get_scenes (scenesIndex : String → List (String × String))
    (sceneDetail : String → String → γ) (group : String) (id : PyId) :
    List (String × γ) :=
  let rid := handle_id id
  let candidates :=
    match rid with
    | .rnone => scenesIndex group
    | _ => (scenesIndex group).filter (fun kv => id_predicate kv.1 kv.2 rid)
  candidates.map (fun kv => (kv.1, sceneDetail group kv.1))

/-- The per-group loop of `Server.store_scene2`: build the cumulative
per-light target state by folding the ordered `config` entries (later
entries override earlier ones for the same light), look up the matching
scenes (raising `RuntimeError` when none), and write each computed light
state into each matching scene slot. -/
def store_scene2_loop (srv : Server) (lightsData : List (String × Light))
    (scenesIndex : String → List (String × String))
    (sceneDetail : String → String → γ) (scene : PyId)
    (config : List (PyId × String)) :
    List (String × GroupData) → Except PyErr (List (List String × StateDict))
  | [] => .ok []
  | (gk, gv) :: rest => do
    let group_lights := select_lights_by_integer_id lightsData gv.lights
    let state_lights ← config.foldlM (fun acc ckv => do
      let light_id := handle_id ckv.1
      let affected := group_lights.filter
        (fun kv => id_predicate kv.1 kv.2.name light_id)
      let st ← get_light_state_dict srv affected (py_split ckv.2)
      pure (dupdate acc st)) ([] : List (String × StateDict))
    let scenes := get_scenes scenesIndex sceneDetail gk scene
    if scenes.length = 0 then
      .error (.runtimeError "Did not find any scenes with the given id in the group")
    else do
      let writes := scenes.flatMap (fun skv =>
        state_lights.map (fun lkv =>
          ([srv.api_key, "groups", gk, "scenes", skv.1, "lights", lkv.1, "state"],
           lkv.2)))
      let more ← store_scene2_loop srv lightsData scenesIndex sceneDetail
        scene config rest
      .ok (writes ++ more)

/-- Embeds `Server.store_scene2`: zero matched groups raises `RuntimeError`;
every matched group is then processed by the loop (there is no
more-than-one-group check). -/
def store_scene2 (srv : Server) (groupsData : List (String × GroupData))
    (lightsData : List (String × Light))
    (scenesIndex : String → List (String × String))
    (sceneDetail : String → String → γ) (id scene : PyId)
    (config : List (PyId × String)) :
    Except PyErr (List (List String × StateDict)) :=
  let groups := get_groups groupsData id
  if groups.length = 0 then
    .error (.runtimeError "Did not find any groups with the given id")
  else store_scene2_loop srv lightsData scenesIndex sceneDetail scene config groups

/-- The per-light payload computation of `Server.restore_light_state`,
applied to a captured `v["state"]`: delete `alert`, `reachable` and
`effect`; collapse an off snapshot to the bare dictionary `dict(on=False)`;
strip the recorded `colormode` and the colour fields that do not match it;
finally attach the configured transition time. -/
def restore_payload (tt : Int) (v : StateDict) : StateDict :=
  let s := { v with alert := none, reachable := none, effect := none }
  let s := if s.on' = some false then StateDict.onOnly false else s
  let s :=
    match s.colormode with
    | none => s
    | some cm =>
      let s := { s with colormode := none }
      if cm = "ct" then { s with xy := none, hue := none, sat := none }
      else if cm = "xy" then { s with ct := none, hue := none, sat := none }
      else if cm = "hs" then { s with ct := none, xy := none }
      else s
  { s with transitiontime := some tt }

/-- Embeds `Server.restore_light_state`: compute the per-light restore
payload, dispatch it through `_set_single_light`, then wait for the
acknowledgements (the final component is the `wait_for_changes()` result the
source branches on). -/
def restore_light_state (srv : Server) (ws : WsState StateDict)
    (d : List (String × Light)) (set_during_wait : Bool) :
    WsState StateDict × List (String × StateDict) × Option Bool :=
  let writes := d.map (fun kv => (kv.1, restore_payload srv.transitiontime kv.2.state))
  let ws1 := writes.foldl (fun w kv => set_single_light_sync w kv.1 kv.2) ws
  (ws1, writes, wait_for_changes srv ws1 none set_during_wait)

/- ## Concrete fixtures used by witnesses and counterexamples -/

/-- A concrete server configuration (transition time 0, default timeout 10
seconds, arbitrary colour library). -/
def srv0 : Server :=
  { api_key := "key", transitiontime := 0, timeout := 10,
    colorlib := { temperature_to_hs := fun _ => (0, 0), hs_to_xy := fun _ => (0, 0) } }

/-- A cached groups dictionary with two groups whose names both match the
pattern selector `/g/`. -/
def demo_groups : List (String × GroupData) :=
  [("1", { name := "g one", lights := [], scenes := [] }),
   ("2", { name := "g two", lights := [], scenes := [] })]

/-- The tokens of the first branch pair of the keyword loop: exactly those
that give the payload an `on` key. -/
def is_onoff (key : String) : Bool :=
  key = "off" || key = "0" || key = "0%" || key = "on"

/- ## Helper lemmas -/

theorem dlookup_isSome_pos (k : String) (d : List (String × α))
    (h : (dlookup k d).isSome = true) : 0 < d.length := by
  cases d with
  | nil => exact absurd h (by rw [show dlookup k ([] : List (String × α)) = none from rfl]; simp)
  | cons a rest => simp

theorem dinsert_length_pos (k : String) (v : α) (d : List (String × α)) :
    0 < (dinsert k v d).length := by
  unfold dinsert
  split
  · rename_i h
    rw [List.length_map]
    exact dlookup_isSome_pos k d h
  · simp

theorem consume_token_preserves_on (acc : StateDict × Option Int) (key : String)
    (r : StateDict × Option Int) (hk : is_onoff key = false)
    (h : consume_token acc key = Except.ok r) : r.1.on' = acc.1.on' := by
  unfold is_onoff at hk
  simp only [Bool.or_eq_false_iff, decide_eq_false_iff_not] at hk
  rw [consume_token] at h
  have hno : ¬((key = "off" || key = "0" || key = "0%" : Bool) = true) := by
    simp only [Bool.or_eq_true, decide_eq_true_eq]
    push_neg
    exact ⟨⟨hk.1.1.1, hk.1.1.2⟩, hk.1.2⟩
  rw [if_neg hno] at h
  rw [if_neg hk.2] at h
  by_cases h3 : str_endsWith key "%" = true
  · rw [if_pos h3] at h
    cases hp : py_int? (str_dropRight key 1) with
    | some n => rw [hp] at h; cases h; rfl
    | none => rw [hp] at h; cases h
  rw [if_neg h3] at h
  by_cases h4 : str_endsWith key "k" = true
  · rw [if_pos h4] at h
    cases hp : py_int? (str_dropRight key 1) with
    | some n => rw [hp] at h; cases h; rfl
    | none => rw [hp] at h; cases h
  rw [if_neg h4] at h
  by_cases h5 : key = "candle"
  · rw [if_pos h5] at h; cases h; rfl
  rw [if_neg h5] at h
  by_cases h6 : key = "warm"
  · rw [if_pos h6] at h; cases h; rfl
  rw [if_neg h6] at h
  by_cases h7 : key = "warm+"
  · rw [if_pos h7] at h; cases h; rfl
  rw [if_neg h7] at h
  by_cases h8 : key = "soft"
  · rw [if_pos h8] at h; cases h; rfl
  rw [if_neg h8] at h
  by_cases h9 : key = "natural"
  · rw [if_pos h9] at h; cases h; rfl
  rw [if_neg h9] at h
  by_cases h10 : key = "cool"
  · rw [if_pos h10] at h; cases h; rfl
  rw [if_neg h10] at h
  by_cases h11 : key = "day-"
  · rw [if_pos h11] at h; cases h; rfl
  rw [if_neg h11] at h
  by_cases h12 : key = "day"
  · rw [if_pos h12] at h; cases h; rfl
  rw [if_neg h12] at h
  by_cases h13 : key = "alert"
  · rw [if_pos h13] at h; cases h; rfl
  rw [if_neg h13] at h
  cases h

theorem foldlM_consume_preserves_on (values : List String) :
    ∀ (acc r : StateDict × Option Int),
    values.all (fun k => !is_onoff k) = true →
    values.foldlM consume_token acc = Except.ok r → r.1.on' = acc.1.on' := by
  induction values with
  | nil =>
    intro acc r _ h
    simp only [List.foldlM_nil] at h
    cases h; rfl
  | cons k rest ih =>
    intro acc r hall h
    simp only [List.all_cons, Bool.and_eq_true, Bool.not_eq_true'] at hall
    rw [List.foldlM_cons] at h
    cases hc : consume_token acc k with
    | error e =>
      rw [hc] at h
      rw [show ((Except.error e : Except PyErr (StateDict × Option Int)) >>= fun b => rest.foldlM consume_token b) = Except.error e from rfl] at h
      cases h
    | ok acc' =>
      rw [hc] at h
      rw [show ((Except.ok acc' : Except PyErr (StateDict × Option Int)) >>= fun b => rest.foldlM consume_token b) = rest.foldlM consume_token acc' from rfl] at h
      have h1 := consume_token_preserves_on acc k acc' hall.1 hc
      have h2 := ih acc' r hall.2 h
      rw [h2, h1]

/- ## Claim theorems -/

/-- C1: the claim says `wait_for_changes` signals via its return value/flag
whether the wait timed out or all changes were acknowledged.  The source
discards the Boolean `Event.wait` returns, so the call evaluates to `None`
on every path — its truthiness is `False` even when the event was already
set (`event_wait true … = true`, an immediate, acknowledged return).  The
callers `set_group_lights` and `restore_light_state` branch on this value
and therefore always take their timed-out branch. -/
theorem C1_wait_returns_no_flag :
    (∀ (α : Type) (srv : Server) (st : WsState α) (timeout : Option ℚ) (s : Bool),
       wait_for_changes srv st timeout s = none
       ∧ py_truthy (wait_for_changes srv st timeout s) = false)
    ∧ event_wait true (1 / 100) false = true :=
  ⟨fun _ _ _ _ _ => ⟨rfl, rfl⟩, rfl⟩

/-- C6: selector resolution is deterministic: `"5"` resolves to the literal
integer 5 and matches a resource exactly when `int(resource_id) == 5`;
`"/abc/"` resolves to a case-insensitive pattern matched from position 0,
so it matches the name `abcdef` but not `xabc`; `"Office"` resolves to the
lower-cased name selector and matches `office` and `OFFICE` alike. -/
theorem C6_selector_resolution :
    handle_id (.pystr "5") = .rint 5
    ∧ (∀ (rid nm : String),
        id_predicate rid nm (handle_id (.pystr "5")) = (py_int? rid == some 5))
    ∧ handle_id (.pystr "/abc/") = .rpattern "abc"
    ∧ id_predicate "1" "abcdef" (handle_id (.pystr "/abc/")) = true
    ∧ id_predicate "2" "xabc" (handle_id (.pystr "/abc/")) = false
    ∧ handle_id (.pystr "Office") = .rname "office"
    ∧ id_predicate "3" "office" (handle_id (.pystr "Office")) = true
    ∧ id_predicate "4" "OFFICE" (handle_id (.pystr "Office")) = true := by
  have h5 : handle_id (.pystr "5") = .rint 5 := by decide
  have hp : handle_id (.pystr "/abc/") = .rpattern "abc" := by decide
  have ho : handle_id (.pystr "Office") = .rname "office" := by decide
  refine ⟨h5, ?_, hp, ?_, ?_, ho, ?_, ?_⟩
  · intro rid nm
    rw [h5]
    rfl
  · rw [hp]
    decide
  · rw [hp]
    decide
  · rw [ho]
    decide
  · rw [ho]
    decide

/-- C7: translating `["on", "50%", "cool"]` against any device state with no
`colormode` field yields exactly the payload with the single key
`on = true`: brightness and temperature are dropped and no transition-time
field is attached. -/
theorem C7_onoff_only_device (srv : Server) (st : StateDict)
    (h : st.colormode = none) :
    translate_light_state srv st (250, 454) ["on", "50%", "cool"]
      = Except.ok (StateDict.onOnly true) := by
  have hfold : ["on", "50%", "cool"].foldlM consume_token
      ({ StateDict.empty with transitiontime := some srv.transitiontime }, none)
      = Except.ok
        ({ StateDict.empty with
            transitiontime := some srv.transitiontime
            on' := some true
            bri := some (bri_of 50) },
         some 4000) := rfl
  unfold translate_light_state
  rw [hfold, h]

/-- C7 witness: the theorem applied at the concrete server `srv0` and the
empty state dictionary. -/
theorem C7_witness :
    (StateDict.empty.colormode = none)
    ∧ translate_light_state srv0 StateDict.empty (250, 454) ["on", "50%", "cool"]
        = Except.ok (StateDict.onOnly true) :=
  ⟨rfl, C7_onoff_only_device srv0 StateDict.empty rfl⟩

/-- C8: a Kelvin intent is converted to mired as `round(1e6 / kelvin)` and
clamped to the advertised device bounds (the clamp flag of `ct_of` records
the logged warning): the `ct` field never leaves `[lo, hi]`, and requesting
6500K on a device bounded to `[250, 454]` yields the boundary value 250 with
the warning flag set. -/
theorem C8_kelvin_clamped_to_bounds :
    (∀ (lo hi k : Int), lo ≤ hi →
      (ct_of (lo, hi) k).1 = max lo (min hi (color_temperature_kelvin_to_mired k))
      ∧ lo ≤ (ct_of (lo, hi) k).1 ∧ (ct_of (lo, hi) k).1 ≤ hi
      ∧ (ct_of (lo, hi) k).2
          = (decide (color_temperature_kelvin_to_mired k < lo)
             || decide (hi < color_temperature_kelvin_to_mired k)))
    ∧ color_temperature_kelvin_to_mired 6500 = 154
    ∧ translate_light_state srv0
        { StateDict.empty with on' := some true, colormode := some "ct" }
        (250, 454) ["6500k"]
        = Except.ok { StateDict.empty with transitiontime := some 0, ct := some 250 }
    ∧ (ct_of (250, 454) 6500).2 = true := by
  refine ⟨?_, by decide, rfl, by decide⟩
  intro lo hi k hb
  refine ⟨?_, ?_, ?_, ?_⟩ <;>
    simp only [ct_of] <;>
    split_ifs with h1 h2 h2 <;>
    simp_all <;>
    omega

/-- C8 witness: the universally quantified clamp description applied at the
concrete bounds `[250, 454]` and 6500K. -/
theorem C8_witness :
    (ct_of (250, 454) 6500).1
      = max 250 (min 454 (color_temperature_kelvin_to_mired 6500))
    ∧ (ct_of (250, 454) 6500).1 = 250 :=
  ⟨(C8_kelvin_clamped_to_bounds.1 250 454 6500 (by decide)).1, by decide⟩

/-- C9 counterexample: the claim asserts that restoring a captured snapshot
reproduces the pre-change `on`/brightness/colour fields exactly whenever the
colormode did not change.  For a snapshot captured while the light was off
(`on = false`), `restore_light_state` collapses the payload to the bare
`dict(on=False)` plus the transition time: the recorded brightness 200 and
`ct` 300 are dropped, so they are not reproduced. -/
theorem C9_counterexample :
    (restore_payload 0
        { StateDict.empty with
            on' := some false
            bri := some 200
            ct := some 300
            colormode := some "ct" }).bri = none
    ∧ ({ StateDict.empty with
          on' := some false
          bri := some 200
          ct := some 300
          colormode := some "ct" } : StateDict).bri = some 200
    ∧ restore_payload 0
        { StateDict.empty with
            on' := some false
            bri := some 200
            ct := some 300
            colormode := some "ct" }
        = { StateDict.empty with on' := some false, transitiontime := some 0 } := by
  refine ⟨by decide, by decide, by decide⟩

/-- C9 (amended): for a snapshot that was not captured in the off state
(`on ≠ false`), the restore payload keeps `on` and brightness exactly,
keeps precisely the colour field matching the recorded colormode, strips
`alert`/`reachable`/`effect`/`colormode`, and attaches the transition
time.  (The claim as frozen is falsified by off snapshots, whose payload is
collapsed to `dict(on=False)` — see the counterexample.) -/
theorem C9_restore_round_trip (tt : Int) (s : StateDict) (cm : String)
    (h1 : s.colormode = some cm) (h2 : s.on' ≠ some false) :
    (restore_payload tt s).on' = s.on'
    ∧ (restore_payload tt s).bri = s.bri
    ∧ (cm = "ct" → (restore_payload tt s).ct = s.ct
        ∧ (restore_payload tt s).xy = none
        ∧ (restore_payload tt s).hue = none
        ∧ (restore_payload tt s).sat = none)
    ∧ (cm = "xy" → (restore_payload tt s).xy = s.xy
        ∧ (restore_payload tt s).ct = none
        ∧ (restore_payload tt s).hue = none
        ∧ (restore_payload tt s).sat = none)
    ∧ (cm = "hs" → (restore_payload tt s).hue = s.hue
        ∧ (restore_payload tt s).sat = s.sat
        ∧ (restore_payload tt s).ct = none
        ∧ (restore_payload tt s).xy = none)
    ∧ (restore_payload tt s).alert = none
    ∧ (restore_payload tt s).reachable = none
    ∧ (restore_payload tt s).effect = none
    ∧ (restore_payload tt s).colormode = none
    ∧ (restore_payload tt s).transitiontime = some tt := by
  obtain ⟨tt0, on0, bri0, al0, ct0, hue0, sat0, xy0, re0, ef0, cm0⟩ := s
  simp only at h1 h2
  subst h1
  unfold restore_payload
  dsimp only
  rw [if_neg h2]
  dsimp only
  by_cases hct : cm = "ct"
  · subst hct
    simp
  rw [if_neg hct]
  by_cases hxy : cm = "xy"
  · subst hxy
    simp
  rw [if_neg hxy]
  by_cases hhs : cm = "hs"
  · subst hhs
    simp
  rw [if_neg hhs]
  simp [hct, hxy, hhs]

/-- C9 witness: the amended round-trip applied to a concrete `on`, `ct`-mode
snapshot. -/
theorem C9_witness :
    (restore_payload 5
        { StateDict.empty with
            on' := some true
            bri := some 200
            ct := some 300
            hue := some 7
            alert := some "lselect"
            colormode := some "ct" }).on' = some true
    ∧ (restore_payload 5
        { StateDict.empty with
            on' := some true
            bri := some 200
            ct := some 300
            hue := some 7
            alert := some "lselect"
            colormode := some "ct" }).bri = some 200
    ∧ (restore_payload 5
        { StateDict.empty with
            on' := some true
            bri := some 200
            ct := some 300
            hue := some 7
            alert := some "lselect"
            colormode := some "ct" }).ct = some 300 := by
  have h := C9_restore_round_trip 5
    { StateDict.empty with
        on' := some true
        bri := some 200
        ct := some 300
        hue := some 7
        alert := some "lselect"
        colormode := some "ct" } "ct" (by decide) (by decide)
  exact ⟨h.1, h.2.1, (h.2.2.1 rfl).1⟩

/-- C10: against a device state with no `colormode` field, the translator
only produces a payload when the token list contains an on/off token
(`on`, `off`, `0`, `0%`): the final reduction reads the `on` key, which no
other token ever sets, so a token list such as `["50%"]` raises `KeyError`
instead of returning a payload. -/
theorem C10_no_onoff_token_keyerror :
    (∀ (srv : Server) (st : StateDict) (bounds : Int × Int)
       (values : List String) (p : StateDict),
       st.colormode = none →
       translate_light_state srv st bounds values = Except.ok p →
       values.any is_onoff = true)
    ∧ translate_light_state srv0 StateDict.empty (250, 454) ["50%"]
        = Except.error (.keyError "on") := by
  constructor
  · intro srv st bounds values p hcm h
    by_contra hany
    rw [Bool.not_eq_true] at hany
    have hall : values.all (fun k => !is_onoff k) = true := by
      simp only [List.any_eq_false] at hany
      simp only [List.all_eq_true, Bool.not_eq_true']
      intro x hx
      exact Bool.not_eq_true _ ▸ hany x hx
    unfold translate_light_state at h
    cases hf : values.foldlM consume_token
        ({ StateDict.empty with transitiontime := some srv.transitiontime }, none) with
    | error e => rw [hf] at h; cases h
    | ok rt =>
      rw [hf] at h
      have hon : rt.1.on' = none := foldlM_consume_preserves_on values _ rt hall hf
      rw [hcm] at h
      dsimp only at h
      rw [hon] at h
      cases h
  · rfl

/-- C10 witness: the implication applied at a concrete state and the token
list `["on"]`, whose translation does succeed. -/
theorem C10_witness : (["on"] : List String).any is_onoff = true :=
  C10_no_onoff_token_keyerror.1 srv0 StateDict.empty (250, 454) ["on"]
    (StateDict.onOnly true) rfl rfl

/-- C2: the pending set and the terminate signal move together: after a
dispatch (`_set_single_light` registers the entry and clears the signal) and
after a processed notification (`_on_message` removes the matching entry),
the signal is set iff the pending set is empty; consequently a write
dispatched from the idle state whose matching notification is processed
before `wait_for_changes` is called leaves the signal set, so the underlying
event wait returns immediately. -/
theorem C2_pending_set_and_signal :
    (∀ (α : Type) (st : WsState α) (id : String) (d : α),
       ws_inv (set_single_light_sync st id d))
    ∧ (∀ (α : Type) (st : WsState α) (m : WsMsg α),
       ws_inv st → ws_inv (on_message st m))
    ∧ (∀ (α : Type) (st : WsState α) (id : String) (d d' : α) (t : ℚ),
       st.waitingLights = [] → st.waitingGroups = [] →
       (on_message (set_single_light_sync st id d)
         { e := "changed", r := "lights", id := id, state := d' }).canTerminate = true
       ∧ event_wait (on_message (set_single_light_sync st id d)
           { e := "changed", r := "lights", id := id, state := d' }).canTerminate
           t false = true) := by
  refine ⟨?_, ?_, ?_⟩
  · intro α st id d
    unfold ws_inv set_single_light_sync
    dsimp only
    rw [eq_comm, decide_eq_false_iff_not]
    have := dinsert_length_pos id d st.waitingLights
    omega
  · intro α st m hinv
    unfold ws_inv at hinv
    unfold on_message
    by_cases he : m.e = "changed"
    swap
    · rw [if_neg he]; exact hinv
    rw [if_pos he]
    by_cases hr : m.r = "lights"
    · rw [if_pos hr]
      by_cases hl : (dlookup m.id st.waitingLights).isSome = true
      swap
      · rw [if_neg hl]; exact hinv
      rw [if_pos hl]
      unfold ws_inv
      dsimp only
      have hpos := dlookup_isSome_pos m.id st.waitingLights hl
      by_cases hz : (derase m.id st.waitingLights).length + st.waitingGroups.length = 0
      · rw [if_pos hz, eq_comm, decide_eq_true_eq]
        exact hz
      · rw [if_neg hz, hinv]
        have h1 : st.waitingLights.length + st.waitingGroups.length ≠ 0 := by omega
        simp [h1, hz]
    rw [if_neg hr]
    by_cases hg : m.r = "groups"
    swap
    · rw [if_neg hg]; exact hinv
    rw [if_pos hg]
    by_cases hl : (dlookup m.id st.waitingGroups).isSome = true
    swap
    · rw [if_neg hl]; exact hinv
    rw [if_pos hl]
    unfold ws_inv
    dsimp only
    have hpos := dlookup_isSome_pos m.id st.waitingGroups hl
    by_cases hz : st.waitingLights.length + (derase m.id st.waitingGroups).length = 0
    · rw [if_pos hz, eq_comm, decide_eq_true_eq]
      exact hz
    · rw [if_neg hz, hinv]
      have h1 : st.waitingLights.length + st.waitingGroups.length ≠ 0 := by omega
      simp [h1, hz]
  · intro α st id d d' t h1 h2
    obtain ⟨wl, wg, b⟩ := st
    dsimp only at h1 h2
    subst h1
    subst h2
    constructor
    · simp [set_single_light_sync, on_message, dinsert, dlookup, derase]
    · simp [event_wait, set_single_light_sync, on_message, dinsert, dlookup, derase]

/-- C2 witness: the invariant and the already-acknowledged scenario at
concrete states. -/
theorem C2_witness :
    ws_inv (set_single_light_sync
      ({ waitingLights := [], waitingGroups := [], canTerminate := true } : WsState Nat)
      "4" 0)
    ∧ ws_inv (on_message
      ({ waitingLights := [("4", 0)], waitingGroups := [], canTerminate := false } : WsState Nat)
      { e := "changed", r := "lights", id := "4", state := 0 })
    ∧ (on_message (set_single_light_sync
        ({ waitingLights := [], waitingGroups := [], canTerminate := true } : WsState Nat)
        "4" 0)
        { e := "changed", r := "lights", id := "4", state := 1 }).canTerminate = true :=
  ⟨C2_pending_set_and_signal.1 Nat _ "4" 0,
   C2_pending_set_and_signal.2.1 Nat _ _ (by unfold ws_inv; decide),
   (C2_pending_set_and_signal.2.2 Nat _ "4" 0 1 1 rfl rfl).1⟩

/-- C3 counterexample: the claim extends the exactly-one-group contract to
`store_scene2`, but the source behaves differently there: a selector
matching zero groups makes `store_scene2` raise `RuntimeError` instead of
logging and returning, and a selector matching two groups is processed
without any ambiguity failure (here yielding zero writes only because the
configuration is empty). -/
theorem C3_counterexample :
    store_scene2 srv0 demo_groups [] (fun _ => [("11", "Evening")])
      (fun _ _ => (0 : Nat)) (.pystr "nomatch") (.pystr "evening") []
      = .error (.runtimeError "Did not find any groups with the given id")
    ∧ store_scene2 srv0 demo_groups [] (fun _ => [("11", "Evening")])
      (fun _ _ => (0 : Nat)) (.pystr "/g/") (.pystr "evening") [] = .ok []
    ∧ (get_groups demo_groups (.pystr "/g/")).length = 2 :=
  ⟨rfl, rfl, by decide⟩

/-- C3 (amended): `store_scene` requires the selector to resolve to exactly
one group — zero matches logs and returns with no writes, more than one
raises `RuntimeError` before any write.  `store_scene2` instead raises
`RuntimeError` when zero groups match and processes every matched group with
no ambiguity check. -/
theorem C3_store_scene_group_arity :
    (∀ (srv : Server) (data : List (String × GroupData)) (id scene : PyId),
       (get_groups data id).length = 0 → store_scene srv data id scene = .ok [])
    ∧ (∀ (srv : Server) (data : List (String × GroupData)) (id scene : PyId),
       1 < (get_groups data id).length →
       store_scene srv data id scene
         = .error (.runtimeError "Scene storage can only affect one group at a time"))
    ∧ (∀ (γ : Type) (srv : Server) (groupsData : List (String × GroupData))
        (lightsData : List (String × Light))
        (scenesIndex : String → List (String × String))
        (sceneDetail : String → String → γ) (id scene : PyId)
        (config : List (PyId × String)),
       (get_groups groupsData id).length = 0 →
       store_scene2 srv groupsData lightsData scenesIndex sceneDetail id scene config
         = .error (.runtimeError "Did not find any groups with the given id"))
    ∧ store_scene2 srv0 demo_groups [] (fun _ => [("11", "Evening")])
        (fun _ _ => (0 : Nat)) (.pystr "/g/") (.pystr "evening") [] = .ok [] := by
  refine ⟨?_, ?_, ?_, rfl⟩
  · intro srv data id scene h
    unfold store_scene
    dsimp only
    rw [if_pos h]
  · intro srv data id scene h
    unfold store_scene
    dsimp only
    rw [if_neg (by omega), if_pos (by omega)]
  · intro γ srv groupsData lightsData scenesIndex sceneDetail id scene config h
    unfold store_scene2
    dsimp only
    rw [if_pos h]

/-- C3 witness: the three quantified statements applied at concrete
selectors over `demo_groups`. -/
theorem C3_witness :
    store_scene srv0 demo_groups (.pystr "nomatch") (.pystr "evening") = .ok []
    ∧ store_scene srv0 demo_groups (.pystr "/g/") (.pystr "evening")
        = .error (.runtimeError "Scene storage can only affect one group at a time")
    ∧ store_scene2 srv0 demo_groups [] (fun _ => [("11", "Evening")])
        (fun _ _ => (0 : Nat)) (.pystr "nomatch") (.pystr "evening") []
        = .error (.runtimeError "Did not find any groups with the given id") :=
  ⟨C3_store_scene_group_arity.1 srv0 demo_groups (.pystr "nomatch") (.pystr "evening")
     (by decide),
   C3_store_scene_group_arity.2.1 srv0 demo_groups (.pystr "/g/") (.pystr "evening")
     (by decide),
   C3_store_scene_group_arity.2.2.1 Nat srv0 demo_groups []
     (fun _ => [("11", "Evening")]) (fun _ _ => (0 : Nat))
     (.pystr "nomatch") (.pystr "evening") [] (by decide)⟩

/-- C4 counterexample: with a cached lights snapshot `7` (ETag `"A"`) and a
gateway that answers 500 Internal Server Error with body `9` and ETag `"B"`,
the cache read does not return the stale value: it replaces the snapshot and
ETag with those of the failure response and returns `9`.  If the failure response
carries no ETag header, the read raises `KeyError` instead of returning
anything — so the read neither never-raises nor preserves the stale value. -/
theorem C4_counterexample :
    cache_lights
      (fun _ => ({ status := 500, reason := "Internal Server Error",
                   etag := some "B", body := 9 } : HResp Nat))
      ⟨some 7, some "A"⟩
      = (⟨some 9, some "B"⟩, .ok 9)
    ∧ (9 : Nat) ≠ 7
    ∧ resp_ok ({ status := 500, reason := "Internal Server Error",
                 etag := some "B", body := 9 } : HResp Nat) = false
    ∧ cache_lights
      (fun _ => ({ status := 500, reason := "Internal Server Error",
                   etag := none, body := 9 } : HResp Nat))
      ⟨some 7, some "A"⟩
      = (⟨some 9, some "A"⟩, .error (.keyError "ETag")) :=
  ⟨rfl, by decide, rfl, rfl⟩

/-- C4 (amended): `_get` itself never raises — a non-ok response is logged
with its status code and reason — but the cache layer treats every non-304
response, failures included, as an update: the snapshot and ETag are
replaced by the response body and ETag header and the body is returned to
the caller in place of the stale value; when such a response lacks an ETag
header the read raises `KeyError`. -/
theorem C4_cache_failure_semantics :
    (∀ (α : Type) (r : HResp α), 400 ≤ r.status →
       get_logged r = some (r.status, r.reason))
    ∧ (∀ (α : Type) (fetch : Option String → HResp α) (snap : α) (tag e : String),
       (fetch (some tag)).status ≠ 304 → (fetch (some tag)).etag = some e →
       cache_config fetch ⟨some snap, some tag⟩
         = (⟨some (fetch (some tag)).body, some e⟩, .ok (fetch (some tag)).body))
    ∧ (∀ (α : Type) (fetch : Option String → HResp α) (snap : α) (tag e : String),
       (fetch (some tag)).status ≠ 304 → (fetch (some tag)).etag = some e →
       cache_lights fetch ⟨some snap, some tag⟩
         = (⟨some (fetch (some tag)).body, some e⟩, .ok (fetch (some tag)).body))
    ∧ (∀ (α : Type) (fetch : Option String → HResp α) (snap : α) (tag e : String),
       (fetch (some tag)).status ≠ 304 → (fetch (some tag)).etag = some e →
       cache_groups fetch ⟨some snap, some tag⟩
         = (⟨some (fetch (some tag)).body, some e⟩, .ok (fetch (some tag)).body))
    ∧ (∀ (α : Type) (fetch : Option String → HResp α) (snap : α) (tag : String),
       (fetch (some tag)).status ≠ 304 → (fetch (some tag)).etag = none →
       cache_lights fetch ⟨some snap, some tag⟩
         = (⟨some (fetch (some tag)).body, some tag⟩, .error (.keyError "ETag"))) := by
  refine ⟨?_, ?_, ?_, ?_, ?_⟩
  · intro α r h
    unfold get_logged resp_ok
    rw [if_neg (by simp; omega)]
  · intro α fetch snap tag e h1 h2
    unfold cache_config
    dsimp only
    rw [if_neg h1, h2]
  · intro α fetch snap tag e h1 h2
    unfold cache_lights
    dsimp only
    rw [if_neg h1, h2]
  · intro α fetch snap tag e h1 h2
    unfold cache_groups
    dsimp only
    rw [if_neg h1, h2]
  · intro α fetch snap tag h1 h2
    unfold cache_lights
    dsimp only
    rw [if_neg h1, h2]

/-- C4 witness: the amended semantics applied at a concrete failing fetch. -/
theorem C4_witness :
    get_logged ({ status := 500, reason := "Internal Server Error",
                  etag := some "B", body := 9 } : HResp Nat) = some (500, "Internal Server Error")
    ∧ cache_config
        (fun _ => ({ status := 500, reason := "Internal Server Error",
                     etag := some "B", body := 9 } : HResp Nat))
        ⟨some 7, some "A"⟩
        = (⟨some 9, some "B"⟩, .ok 9)
    ∧ cache_groups
        (fun _ => ({ status := 500, reason := "Internal Server Error",
                     etag := some "B", body := 9 } : HResp Nat))
        ⟨some 7, some "A"⟩
        = (⟨some 9, some "B"⟩, .ok 9) :=
  ⟨C4_cache_failure_semantics.1 Nat _ (by decide),
   C4_cache_failure_semantics.2.1 Nat _ 7 "A" "B" (by decide) rfl,
   C4_cache_failure_semantics.2.2.2.1 Nat _ 7 "A" "B" (by decide) rfl⟩

/-- C5: for each cache kind, a conditional refresh carrying the stored ETag
behaves as claimed: a 304 whose returned ETag equals the stored one leaves
the snapshot and the ETag unchanged and returns the cached snapshot; a 304
whose returned ETag differs fails the assert (a gateway protocol violation,
not a normal path); any other success status replaces both the snapshot and
the ETag.  ETags are only ever compared for equality. -/
theorem C5_etag_conditional_refresh :
    (∀ (α : Type) (fetch : Option String → HResp α) (snap : α) (tag : String),
       (fetch (some tag)).status = 304 → (fetch (some tag)).etag = some tag →
       cache_config fetch ⟨some snap, some tag⟩ = (⟨some snap, some tag⟩, .ok snap))
    ∧ (∀ (α : Type) (fetch : Option String → HResp α) (snap : α) (tag : String),
       (fetch (some tag)).status = 304 → (fetch (some tag)).etag = some tag →
       cache_lights fetch ⟨some snap, some tag⟩ = (⟨some snap, some tag⟩, .ok snap))
    ∧ (∀ (α : Type) (fetch : Option String → HResp α) (snap : α) (tag : String),
       (fetch (some tag)).status = 304 → (fetch (some tag)).etag = some tag →
       cache_groups fetch ⟨some snap, some tag⟩ = (⟨some snap, some tag⟩, .ok snap))
    ∧ (∀ (α : Type) (fetch : Option String → HResp α) (snap : α) (tag e : String),
       (fetch (some tag)).status = 304 → (fetch (some tag)).etag = some e → e ≠ tag →
       cache_config fetch ⟨some snap, some tag⟩
         = (⟨some snap, some tag⟩, .error .assertionError))
    ∧ (∀ (α : Type) (fetch : Option String → HResp α) (snap : α) (tag e : String),
       (fetch (some tag)).status = 304 → (fetch (some tag)).etag = some e → e ≠ tag →
       cache_lights fetch ⟨some snap, some tag⟩
         = (⟨some snap, some tag⟩, .error .assertionError))
    ∧ (∀ (α : Type) (fetch : Option String → HResp α) (snap : α) (tag e : String),
       (fetch (some tag)).status = 304 → (fetch (some tag)).etag = some e → e ≠ tag →
       cache_groups fetch ⟨some snap, some tag⟩
         = (⟨some snap, some tag⟩, .error .assertionError))
    ∧ (∀ (α : Type) (fetch : Option String → HResp α) (snap : α) (tag e : String),
       200 ≤ (fetch (some tag)).status → (fetch (some tag)).status < 400 →
       (fetch (some tag)).status ≠ 304 → (fetch (some tag)).etag = some e →
       cache_config fetch ⟨some snap, some tag⟩
         = (⟨some (fetch (some tag)).body, some e⟩, .ok (fetch (some tag)).body))
    ∧ (∀ (α : Type) (fetch : Option String → HResp α) (snap : α) (tag e : String),
       200 ≤ (fetch (some tag)).status → (fetch (some tag)).status < 400 →
       (fetch (some tag)).status ≠ 304 → (fetch (some tag)).etag = some e →
       cache_lights fetch ⟨some snap, some tag⟩
         = (⟨some (fetch (some tag)).body, some e⟩, .ok (fetch (some tag)).body))
    ∧ (∀ (α : Type) (fetch : Option String → HResp α) (snap : α) (tag e : String),
       200 ≤ (fetch (some tag)).status → (fetch (some tag)).status < 400 →
       (fetch (some tag)).status ≠ 304 → (fetch (some tag)).etag = some e →
       cache_groups fetch ⟨some snap, some tag⟩
         = (⟨some (fetch (some tag)).body, some e⟩, .ok (fetch (some tag)).body)) := by
  refine ⟨?_, ?_, ?_, ?_, ?_, ?_, ?_, ?_, ?_⟩
  · intro α fetch snap tag h1 h2
    unfold cache_config
    dsimp only
    rw [if_pos h1, h2]
    dsimp only
    rw [if_pos rfl]
  · intro α fetch snap tag h1 h2
    unfold cache_lights
    dsimp only
    rw [if_pos h1, h2]
    dsimp only
    rw [if_pos rfl]
  · intro α fetch snap tag h1 h2
    unfold cache_groups
    dsimp only
    rw [if_pos h1, h2, if_pos rfl]
  · intro α fetch snap tag e h1 h2 h3
    unfold cache_config
    dsimp only
    rw [if_pos h1, h2]
    dsimp only
    rw [if_neg h3]
  · intro α fetch snap tag e h1 h2 h3
    unfold cache_lights
    dsimp only
    rw [if_pos h1, h2]
    dsimp only
    rw [if_neg h3]
  · intro α fetch snap tag e h1 h2 h3
    unfold cache_groups
    dsimp only
    rw [if_pos h1, h2]
    rw [if_neg (by simp [h3])]
  · intro α fetch snap tag e _ _ h1 h2
    unfold cache_config
    dsimp only
    rw [if_neg h1, h2]
  · intro α fetch snap tag e _ _ h1 h2
    unfold cache_lights
    dsimp only
    rw [if_neg h1, h2]
  · intro α fetch snap tag e _ _ h1 h2
    unfold cache_groups
    dsimp only
    rw [if_neg h1, h2]

/-- C5 witness: the conditional-refresh behaviour at a concrete 304 response
(all three kinds) and a concrete 200 refresh. -/
theorem C5_witness :
    cache_config
      (fun _ => ({ status := 304, reason := "Not Modified",
                   etag := some "A", body := 9 } : HResp Nat))
      ⟨some 7, some "A"⟩ = (⟨some 7, some "A"⟩, .ok 7)
    ∧ cache_lights
      (fun _ => ({ status := 304, reason := "Not Modified",
                   etag := some "A", body := 9 } : HResp Nat))
      ⟨some 7, some "A"⟩ = (⟨some 7, some "A"⟩, .ok 7)
    ∧ cache_groups
      (fun _ => ({ status := 304, reason := "Not Modified",
                   etag := some "A", body := 9 } : HResp Nat))
      ⟨some 7, some "A"⟩ = (⟨some 7, some "A"⟩, .ok 7)
    ∧ cache_lights
      (fun _ => ({ status := 200, reason := "OK",
                   etag := some "B", body := 9 } : HResp Nat))
      ⟨some 7, some "A"⟩ = (⟨some 9, some "B"⟩, .ok 9) :=
  ⟨C5_etag_conditional_refresh.1 Nat _ 7 "A" rfl rfl,
   C5_etag_conditional_refresh.2.1 Nat _ 7 "A" rfl rfl,
   C5_etag_conditional_refresh.2.2.1 Nat _ 7 "A" rfl rfl,
   C5_etag_conditional_refresh.2.2.2.2.2.2.2.1 Nat _ 7 "A" "B"
     (by decide) (by decide) (by decide) rfl⟩
